import Mathlib

/-!
Shallow embedding of the Invoice-Frontend payment workflow
(PinVerification, Invoice, PaymentConfirmation components, the RTK-Query
api with its `schedulePayment` helper mutation, and the mock in-memory api
with `getInvoice` / `processPayment`).  Monetary values are modelled as
rationals: every arithmetic operation the claims exercise
(`parseFloat` on well-formed decimal strings, `amount * 0.029`,
additions of 2-decimal values) is exact in IEEE doubles at the inputs the
theorems evaluate, so the rational model agrees with the JavaScript
semantics there.
-/

namespace InvoiceFrontend

/-! ### Data model (src/mocks/invoiceData.ts) -/

/-- The nested `creditMemo` object of the mock invoice interface. -/
structure CreditMemo where
  id : String
  amount : ℚ
  deriving Repr, DecidableEq

/-- The `Invoice` interface of src/mocks/invoiceData.ts. -/
structure Invoice where
  id : String
  customer : String
  invoiceNumber : String
  issueDate : String
  dueDate : String
  originalAmount : ℚ
  creditMemo : CreditMemo
  outstandingBalance : ℚ
  pin : String
  deriving Repr, DecidableEq

/-- The `PaymentResponse` interface of src/mocks/invoiceData.ts.
`transactionId` is `string | null` in TypeScript, hence `Option String`. -/
structure PaymentResponse where
  invoiceNumber : String
  customer : String
  paymentOption : String
  paymentMethod : String
  paymentAmount : ℚ
  processingFee : ℚ
  totalAmount : ℚ
  transactionDate : String
  transactionId : Option String
  success : Bool
  deriving Repr, DecidableEq

/-- The `mockInvoices` array of src/mocks/invoiceData.ts. -/
def mockInvoices : List Invoice :=
  [ { id := "1", customer := "Acme Corporation", invoiceNumber := "INV-2023-0042",
      issueDate := "2023-04-15", dueDate := "2023-05-15", originalAmount := 2500,
      creditMemo := { id := "CM-001", amount := 150 }, outstandingBalance := 2350,
      pin := "123456" },
    { id := "2", customer := "Globex Industries", invoiceNumber := "INV-2023-0055",
      issueDate := "2023-04-20", dueDate := "2023-05-20", originalAmount := 3750,
      creditMemo := { id := "CM-002", amount := 250 }, outstandingBalance := 3500,
      pin := "654321" },
    { id := "3", customer := "Wayne Enterprises", invoiceNumber := "INV-2023-0061",
      issueDate := "2023-04-25", dueDate := "2023-05-25", originalAmount := 5000,
      creditMemo := { id := "CM-003", amount := 500 }, outstandingBalance := 4500,
      pin := "987654" } ]

/-! ### Query results

RTK-Query `queryFn`s resolve with either `{ data }` or
`{ error: { status, data } }`.  `QueryResult α` mirrors that shape. -/

/-- A resolved RTK-Query call: `ok` is a fulfilled `{ data }` (an HTTP 200
for the real endpoints), `err` an `{ error: { status, data } }`. -/
inductive QueryResult (α : Type) where
  | ok (data : α)
  | err (status : ℕ) (msg : String)
  deriving Repr, DecidableEq

/-! ### Mock api: `getInvoice` query (store/api mock variant) -/

/-- The mock `getInvoice` queryFn: looks the invoice up in `mockInvoices`;
resolves `{ data: null }` when the id is unknown, a 401 error when the PIN
does not match, and `{ data: invoice }` otherwise.  (The 500 ms simulated
latency is dropped; the resolution value is what the embedding keeps.) -/
def getInvoiceMock (invoiceId pin : String) : QueryResult (Option Invoice) :=
  match mockInvoices.find? (fun inv => inv.id == invoiceId) with
  | none => .ok none
  | some invoice =>
      if invoice.pin == pin then .ok (some invoice)
      else .err 401 "Invalid PIN"

/-! ### Invoice component: access state (src/components/Invoice.tsx)

After loading finishes the component computes `isVerified = !!invoice` and
renders the invoice fields and the payment form only in the verified
branch; a fetch error or an absent invoice renders the error alert with no
invoice data. -/

/-- The post-loading state of the Invoice component: `verified` holds the
invoice whose fields are rendered; `denied` is the error-alert branch
(`fetchError || !invoice`), which exposes no invoice data. -/
inductive AccessState where
  | verified (invoice : Invoice)
  | denied
  deriving Repr, DecidableEq

/-- Maps a settled `getInvoice` query result to the state of the component:
`isVerified = !!invoice`, with any error or `null` data landing in the
error-alert (denied) branch. -/
def invoiceAccessState (r : QueryResult (Option Invoice)) : AccessState :=
  match r with
  | .ok (some invoice) => .verified invoice
  | .ok none => .denied
  | .err _ _ => .denied

/-- The invoice data observable from the component in a given state:
only the verified branch renders invoice fields. -/
def renderedInvoice (s : AccessState) : Option Invoice :=
  match s with
  | .verified invoice => some invoice
  | .denied => none

/-! ### PinVerification component (PIN entry screen) -/

/-- The yup schema of the PinVerification form: `pin` required and matching
`^\d{6}$` (exactly six decimal digits). -/
def pinSchemaValid (pin : String) : Bool :=
  pin.length == 6 && pin.data.all Char.isDigit

/-- The workflow screens, as routed by App.tsx: `/` is PinVerification
(PinEntry), `/invoice` is the Invoice component (InvoiceReview),
`/confirmation` is PaymentConfirmation. -/
inductive WorkflowState where
  | pinEntry (invoiceId : Option String)
  | invoiceReview (invoiceId pin : String)
  | confirmation (result : PaymentResponse) (pin invoiceId : String)
  deriving Repr, DecidableEq

/-- The PinVerification submit step, after the schema gate of
`handleSubmit`: a pin
failing the schema keeps the form on the PIN screen with a field error; a
schema-valid pin navigates to
`/invoice?invoiceId=${invoiceId}&pin=${pin}` unconditionally — the handler
performs no API call (its comment: for demo purposes just navigate).
`searchParams.get` yields `null` for a missing id, which the template
literal renders as the string "null". -/
def pinVerificationSubmit (invoiceId : Option String) (pin : String) :
    WorkflowState :=
  if pinSchemaValid pin then
    WorkflowState.invoiceReview (invoiceId.getD "null") pin
  else
    WorkflowState.pinEntry invoiceId

/-! ### Mock api: `processPayment` mutation

`transactionDate` is `new Date().toLocaleDateString()` and the transaction
id draws `Math.floor(Math.random() * 1000000)`; both are environment
inputs, passed here as the `today` and `rand` parameters. -/

/-- The mock `processPayment` queryFn.  `paymentAmount || 0` coerces an
absent (and a zero) amount to 0, modelled by `Option.getD 0`.  The
`additionalMessage` argument is accepted and unused, as in the source. -/
def processPayment (today : String) (rand : ℕ)
    (invoiceId paymentOption paymentMethod : String)
    (paymentAmount : Option ℚ) (additionalMessage : Option String) :
    QueryResult PaymentResponse :=
  match mockInvoices.find? (fun inv => inv.id == invoiceId) with
  | none => .err 404 "Invoice not found"
  | some invoice =>
      let amount : ℚ :=
        if paymentOption == "full" then invoice.outstandingBalance
        else if paymentOption == "partial" then paymentAmount.getD 0
        else invoice.outstandingBalance
      let processingFee : ℚ :=
        if paymentMethod == "creditCard" then amount * (29 / 1000) else 0
      .ok { invoiceNumber := invoice.invoiceNumber
            customer := invoice.customer
            paymentOption :=
              if paymentOption == "full" then "Full payment now"
              else if paymentOption == "partial" then "Partial payment now"
              else "Payment on due date"
            paymentMethod :=
              if paymentMethod == "creditCard" then "Credit card on file"
              else if paymentMethod == "ach" then "ACH on file"
              else "Check"
            paymentAmount := amount
            processingFee := processingFee
            totalAmount := amount + processingFee
            transactionDate := today
            transactionId := some ("TRX-" ++ toString rand)
            success := true }

/-! ### Real api (store/api.ts): InvoiceModel, PUT body, schedulePayment -/

/-- The `InvoiceModel` interface of the real store/api.ts.  Amounts arrive as
decimal strings; `customer_ach_enabled` and `customer_cc_token` are
numbers (0 or 1 from the API); nullable fields are `Option`. -/
structure InvoiceModel where
  id : ℕ
  hash_code : String
  user_account_number : String
  invoice_number : String
  company_number : String
  customer_number : String
  invoice_amount : String
  payment_due_date : String
  payment_date : Option String
  customer_ach_enabled : ℤ
  customer_cc_token : ℤ
  payment_method : Option String
  cc_service_fee : String
  control_number : Option String
  status : String
  date_paid : Option String
  created_at : String
  updated_at : String
  pin : Option String
  deriving Repr, DecidableEq

/-- Fold a digit list into the natural number it denotes. -/
def parseDigits (l : List Char) : ℕ :=
  l.foldl (fun n c => 10 * n + (c.toNat - 48)) 0

/-- Models JavaScript `parseFloat` on the plain decimal strings the API
supplies (optional sign, digits, optional fraction).  Exponents and NaN
propagation are outside what the claims exercise; on well-formed decimal
strings of ≤ 15 significant digits the IEEE-double result round-trips the
same decimal value, so the rational reading is exact. -/
def parseDecimal (s : String) : ℚ :=
  let signAndRest : ℚ × List Char :=
    match s.data with
    | '-' :: t => (-1, t)
    | '+' :: t => (1, t)
    | t => (1, t)
  let intPart := signAndRest.2.takeWhile Char.isDigit
  let rest := signAndRest.2.dropWhile Char.isDigit
  let fracPart : List Char :=
    match rest with
    | '.' :: t => t.takeWhile Char.isDigit
    | _ => []
  signAndRest.1 *
    ((parseDigits intPart : ℚ) +
      (parseDigits fracPart : ℚ) / (10 : ℚ) ^ fracPart.length)

/-- Body of the PUT request that `schedulePayment` issues: exactly the
four fields `pin`, `payment_method`, `payment_date`, `status`. -/
structure PutBody where
  pin : String
  payment_method : String
  payment_date : String
  status : String
  deriving Repr, DecidableEq

/-- The PUT body construction inside the queryFn of `schedulePayment`:
status is
the literal "Scheduled for payment". -/
def schedulePaymentBody (pin paymentMethod paymentDate : String) : PutBody :=
  { pin := pin, payment_method := paymentMethod,
    payment_date := paymentDate, status := "Scheduled for payment" }

/-- The `schedulePayment` queryFn of the real api.  `fetchPut` stands for
`fetchWithBQ` on `PUT api/invoices/{invoiceId}`; on error the error is
forwarded, on success the PaymentResponse is assembled from the echoed
invoice: option is always "Payment on scheduled date", the amount is the
full `invoice_amount`, and the fee is the server-supplied
`cc_service_fee` for Credit Card and 0 otherwise. -/
def schedulePayment (fetchPut : String → PutBody → QueryResult InvoiceModel)
    (invoiceId pin paymentMethod paymentDate : String) :
    QueryResult PaymentResponse :=
  match fetchPut invoiceId (schedulePaymentBody pin paymentMethod paymentDate) with
  | .err st m => .err st m
  | .ok invoice =>
      let processingFee : ℚ :=
        if paymentMethod == "Credit Card" then parseDecimal invoice.cc_service_fee
        else 0
      .ok { invoiceNumber := invoice.invoice_number
            customer := invoice.customer_number
            paymentOption := "Payment on scheduled date"
            paymentMethod :=
              if paymentMethod == "Credit Card" then "Credit card on file"
              else if paymentMethod == "ACH" then "ACH on file"
              else "Check"
            paymentAmount := parseDecimal invoice.invoice_amount
            processingFee := processingFee
            totalAmount := parseDecimal invoice.invoice_amount + processingFee
            transactionDate := paymentDate
            transactionId := invoice.control_number
            success := true }

/-! ### Invoice component: payment form (src/components/Invoice.tsx) -/

/-- The `PaymentFormData` record as held by react-hook-form before
validation: every
field may still be unset. -/
structure PaymentFormData where
  paymentOption : Option String
  paymentAmount : Option ℚ
  paymentMethod : Option String
  additionalMessage : Option String
  deriving Repr, DecidableEq

/-- The yup `schema` of the Invoice form: paymentOption required, one of
full/partial/dueDate; paymentAmount required and positive when the option
is partial, otherwise optional; paymentMethod required, one of
Credit Card/ACH/Check; additionalMessage at most 100 characters.  There is
no constraint relating paymentAmount to the invoice amount. -/
def schemaValid (d : PaymentFormData) : Bool :=
  (match d.paymentOption with
   | some o => o == "full" || o == "partial" || o == "dueDate"
   | none => false) &&
  (if d.paymentOption == some "partial" then
     match d.paymentAmount with
     | some a => decide (0 < a)
     | none => false
   else true) &&
  (match d.paymentMethod with
   | some m => m == "Credit Card" || m == "ACH" || m == "Check"
   | none => false) &&
  (match d.additionalMessage with
   | some s => decide (s.length ≤ 100)
   | none => true)

/-- The form is submittable when the submit button is rendered
(`selectedPaymentMethod` truthy), enabled (`!isProcessing`), and
the resolver of `handleSubmit` passes the yup schema. -/
def submittable (isProcessing : Bool) (d : PaymentFormData) : Bool :=
  (match d.paymentMethod with
   | some m => m != ""
   | none => false) &&
  !isProcessing && schemaValid d

/-- Truthiness of `invoice.payment_method && invoice.payment_date`: both
present and non-empty. -/
def hasExistingPayment (invoice : InvoiceModel) : Bool :=
  (match invoice.payment_method with
   | some m => m != ""
   | none => false) &&
  (match invoice.payment_date with
   | some d => d != ""
   | none => false)

/-- JavaScript `String.prototype.toLowerCase` (ASCII range suffices for the
status strings involved). -/
def jsToLowerCase (s : String) : String :=
  ⟨s.data.map Char.toLower⟩

/-- JavaScript `String.prototype.includes`. -/
def strIncludes (s pat : String) : Bool :=
  s.data.tails.any (fun t => pat.data.isPrefixOf t)

/-- What the prefill `useEffect` writes into the form via `setValue`. -/
structure PrefillResult where
  paymentOption : Option String
  paymentMethod : Option String
  deriving Repr, DecidableEq

/-- The prefill `useEffect` of the Invoice component: when the invoice
carries
an existing payment method and date, set paymentOption to "dueDate" if the
payment date is on/after the due date (`new Date` comparison, modelled by
the `dateValue` valuation of date strings) or the lower-cased status
contains "scheduled", else "full"; carry the payment method over when it
is one of the three recognised methods.  Without an existing payment the
effect writes nothing. -/
def invoicePrefillEffect (dateValue : String → ℤ) (invoice : InvoiceModel) :
    PrefillResult :=
  if hasExistingPayment invoice then
    let paymentDate := dateValue (invoice.payment_date.getD "")
    let dueDate := dateValue invoice.payment_due_date
    let opt : String :=
      if decide (dueDate ≤ paymentDate) ||
          strIncludes (jsToLowerCase invoice.status) "scheduled" then "dueDate"
      else "full"
    let method : Option String :=
      match invoice.payment_method with
      | some m =>
          if m == "Credit Card" || m == "ACH" || m == "Check" then some m
          else none
      | none => none
    { paymentOption := some opt, paymentMethod := method }
  else { paymentOption := none, paymentMethod := none }

/-- The payment-method radio buttons that are not `disabled`: Credit Card
requires a truthy `customer_cc_token`, ACH a truthy
`customer_ach_enabled`, Check is always enabled. -/
def enabledPaymentMethods (invoice : InvoiceModel) : List String :=
  (if invoice.customer_cc_token != 0 then ["Credit Card"] else []) ++
    (if invoice.customer_ach_enabled != 0 then ["ACH"] else []) ++
    ["Check"]

/-- The navigate target of a successful submission: the confirmation route
plus the state payload passed along. -/
structure NavTarget where
  route : String
  paymentResult : PaymentResponse
  pin : String
  invoiceId : String
  deriving Repr, DecidableEq

/-- Observable outcome of `Invoice.onSubmit`: the navigation performed (if
any), whether `console.error` ran, and the error message rendered to the
user by the component (none in either branch: the catch block only logs,
with a placeholder "Handle error" comment, and the component renders no
mutation-error state). -/
structure SubmitOutcome where
  navigation : Option NavTarget
  consoleError : Bool
  renderedError : Option String
  deriving Repr, DecidableEq

/-- The submit handler of the Invoice component: schedules the payment
through the real api with the
payment method of the form and the current date, then navigates to the
confirmation route
carrying the result, the pin, and `invoice?.hash_code || invoiceId`; on a
rejected mutation (`unwrap` throws) the catch block logs to the console
and performs no navigation and no user-visible error rendering. -/
def invoiceOnSubmit (fetchPut : String → PutBody → QueryResult InvoiceModel)
    (invoiceId pin today : String) (invoice : Option InvoiceModel)
    (d : PaymentFormData) : SubmitOutcome :=
  match schedulePayment fetchPut invoiceId pin (d.paymentMethod.getD "") today with
  | .ok result =>
      { navigation := some
          { route := "/confirmation"
            paymentResult := result
            pin := pin
            invoiceId :=
              match invoice with
              | some inv => if inv.hash_code != "" then inv.hash_code else invoiceId
              | none => invoiceId }
        consoleError := false
        renderedError := none }
  | .err _ _ =>
      { navigation := none
        consoleError := true
        renderedError := none }

/-! ### PaymentConfirmation component -/

/-- The router `location.state` shape passed to `/confirmation`. -/
structure LocationState where
  paymentResult : Option PaymentResponse
  pin : Option String
  invoiceId : Option String
  deriving Repr, DecidableEq

/-- What PaymentConfirmation renders: either the redirect performed while
returning `null` (no markup, no error message), or the payment summary. -/
inductive ConfirmationView where
  | redirect (route : String) (replace : Bool)
  | summary (result : PaymentResponse)
  deriving Repr, DecidableEq

/-- The render of PaymentConfirmation: a falsy `location.state?.paymentResult`
(state absent, or result absent) triggers a replacing navigate to the root
route and a null render; otherwise the summary of the result is shown. -/
def paymentConfirmationRender (state : Option LocationState) :
    ConfirmationView :=
  match state with
  | none => .redirect "/" true
  | some st =>
      match st.paymentResult with
      | none => .redirect "/" true
      | some result => .summary result

/-- The route table of App.tsx: which component a path renders. -/
def appRouteComponent (path : String) : String :=
  if path == "/" then "PinVerification"
  else if path == "/invoice" then "Invoice"
  else if path == "/confirmation" then "PaymentConfirmation"
  else "Navigate to /"

/-! ### Spec-side rounding (for comparison only)

The fee property in the spec uses `round(base × rate)` to two decimal
places, round-half-up.  This definition follows the words of the spec, not
the source, and exists solely to compare the arithmetic of the source
against it. -/

/-- Modelled from the spec: rounding to 2 decimal places, round-half-up. -/
def specRound2HalfUp (q : ℚ) : ℚ :=
  (⌊q * 100 + 1 / 2⌋ : ℤ) / 100

/-- The payload of a fulfilled mutation, `none` on a rejected one. -/
def respData (r : QueryResult PaymentResponse) : Option PaymentResponse :=
  match r with
  | .ok d => some d
  | .err _ _ => none

/-! ### Sample records used by concrete instances -/

/-- A representative `InvoiceModel` with both capability flags on and no
existing payment. -/
def sampleInvoice : InvoiceModel :=
  { id := 1, hash_code := "abc123", user_account_number := "UA-1",
    invoice_number := "INV-2023-0042", company_number := "01",
    customer_number := "ACME-7", invoice_amount := "2350.00",
    payment_due_date := "2023-05-15", payment_date := none,
    customer_ach_enabled := 1, customer_cc_token := 1,
    payment_method := none, cc_service_fee := "72.50",
    control_number := some "CTL-9", status := "Open", date_paid := none,
    created_at := "2023-04-15", updated_at := "2023-04-15",
    pin := some "123456" }

/-- An `InvoiceModel` already scheduled: existing ACH payment on file. -/
def scheduledInvoice : InvoiceModel :=
  { sampleInvoice with
    payment_method := some "ACH", payment_date := some "2023-05-20",
    status := "Scheduled for payment" }

/-- An `InvoiceModel` with an existing Credit Card payment on file but the
card capability flag off. -/
def ccDisabledScheduledInvoice : InvoiceModel :=
  { sampleInvoice with
    customer_cc_token := 0,
    payment_method := some "Credit Card", payment_date := some "2023-05-20",
    status := "Scheduled for payment" }

/-! ## Claims -/

/-- C1: for every settled getInvoice response, the component reports
Verified (rendering invoice fields) only when the response is a fulfilled
200 carrying an invoice record, and a 401 or 404 response yields Denied
with no invoice data exposed. -/
theorem C1_access_gate (r : QueryResult (Option Invoice)) :
    (∀ invoice, invoiceAccessState r = AccessState.verified invoice →
      r = QueryResult.ok (some invoice)) ∧
    (∀ st m, st = 401 ∨ st = 404 → r = QueryResult.err st m →
      invoiceAccessState r = AccessState.denied ∧
      renderedInvoice (invoiceAccessState r) = none) := by
  constructor
  · intro invoice h
    cases r with
    | ok data =>
        cases data with
        | none => simp [invoiceAccessState] at h
        | some inv =>
            simp only [invoiceAccessState, AccessState.verified.injEq] at h
            rw [h]
    | err st m => simp [invoiceAccessState] at h
  · intro st m _ hr
    subst hr
    exact ⟨rfl, rfl⟩

/-- C1 witness: the mock getInvoice answers 401 to the wrong PIN for
invoice "1", and the component lands in Denied exposing no data. -/
theorem C1_access_gate_witness :
    invoiceAccessState (getInvoiceMock "1" "000000") = AccessState.denied ∧
    renderedInvoice (invoiceAccessState (getInvoiceMock "1" "000000")) = none :=
  (C1_access_gate (getInvoiceMock "1" "000000")).2 401 "Invalid PIN"
    (Or.inl rfl) (by rfl)

/-- C3 counterexample: submitting PIN "000000" for invoice "1" leaves the
PIN-entry screen and lands on the invoice-review route even though the
server answers 401 — the submit handler never consults the server, so the
workflow does not remain in PinEntry as claimed. -/
theorem C3_counterexample :
    pinVerificationSubmit (some "1") "000000" =
      WorkflowState.invoiceReview "1" "000000" ∧
    getInvoiceMock "1" "000000" = QueryResult.err 401 "Invalid PIN" ∧
    WorkflowState.invoiceReview "1" "000000" ≠ WorkflowState.pinEntry (some "1") := by
  refine ⟨rfl, by rfl, ?_⟩
  intro h
  exact WorkflowState.noConfusion h

/-- C3 amended: any schema-valid 6-digit PIN transitions PinEntry to
InvoiceReview unconditionally, with no server consultation; when the
server then returns 401 (or any error) for the invoice request, the
access-denied view is shown on the InvoiceReview screen, not PinEntry. -/
theorem C3_amended (invoiceId : Option String) (pin : String)
    (h : pinSchemaValid pin = true) :
    pinVerificationSubmit invoiceId pin =
      WorkflowState.invoiceReview (invoiceId.getD "null") pin ∧
    (∀ st m, invoiceAccessState (QueryResult.err st m) = AccessState.denied) := by
  constructor
  · unfold pinVerificationSubmit
    rw [h]
    simp
  · intro st m
    rfl

/-- C3 amended witness: PIN "000000" on invoice "1" moves to
InvoiceReview. -/
theorem C3_amended_witness :
    pinVerificationSubmit (some "1") "000000" =
      WorkflowState.invoiceReview ((some "1").getD "null") "000000" :=
  (C3_amended (some "1") "000000" (by rfl)).1

/-- C5: entering the Confirmation screen with no payment result in the
navigation context renders nothing but a silent `replace` redirect to the
root route, which App.tsx routes to the PinVerification (PinEntry)
screen; no error view is produced. -/
theorem C5_confirmation_guard (state : Option LocationState)
    (h : state.bind (fun st => st.paymentResult) = none) :
    paymentConfirmationRender state = ConfirmationView.redirect "/" true ∧
    appRouteComponent "/" = "PinVerification" := by
  cases state with
  | none => exact ⟨rfl, rfl⟩
  | some st =>
      obtain ⟨pr, pn, iid⟩ := st
      cases pr with
      | none => exact ⟨rfl, rfl⟩
      | some r => simp [Option.bind] at h

/-- C5 witness: a navigation context with pin and invoice id but no
payment result still redirects. -/
theorem C5_confirmation_guard_witness :
    paymentConfirmationRender
        (some { paymentResult := none, pin := some "123456",
                invoiceId := some "1" }) =
      ConfirmationView.redirect "/" true :=
  (C5_confirmation_guard
      (some { paymentResult := none, pin := some "123456",
              invoiceId := some "1" }) rfl).1

/-- C2 counterexample: a Partial selection whose amount (5000) is far above
the base amount of the displayed invoice (2350.00) is nonetheless
submittable —
the yup schema checks only positivity, never an upper bound against the
invoice amount. -/
theorem C2_counterexample :
    submittable false
        { paymentOption := some "partial", paymentAmount := some 5000,
          paymentMethod := some "Check", additionalMessage := none } = true ∧
    ¬ ((5000 : ℚ) < parseDecimal sampleInvoice.invoice_amount) := by
  refine ⟨by rfl, ?_⟩
  intro h
  have hv : parseDecimal sampleInvoice.invoice_amount = 2350 := by
    show (1 : ℚ) * ((2350 : ℕ) + ((0 : ℕ) : ℚ) / (10 : ℚ) ^ (2 : ℕ)) = 2350
    norm_num
  rw [hv] at h
  norm_num at h

/-- C2 amended: with paymentOption = Partial the form is submittable only
if partialAmount is present and strictly positive (no upper bound against
the invoice amount is enforced); with paymentOption Full or OnDueDate the
partialAmount plays no role in the submittable computation. -/
theorem C2_amended (isProcessing : Bool) (d : PaymentFormData) :
    (d.paymentOption = some "partial" → submittable isProcessing d = true →
      d.paymentAmount ≠ none ∧ ∀ a, d.paymentAmount = some a → 0 < a) ∧
    (∀ o a a', o = "full" ∨ o = "dueDate" →
      submittable isProcessing
          { d with paymentOption := some o, paymentAmount := a } =
        submittable isProcessing
          { d with paymentOption := some o, paymentAmount := a' }) := by
  constructor
  · intro hopt hsub
    cases hd : d.paymentAmount with
    | none =>
        exfalso
        unfold submittable schemaValid at hsub
        rw [hopt, hd] at hsub
        simp at hsub
    | some a =>
        refine ⟨by simp [hd], ?_⟩
        intro a' ha'
        injection ha' with haa
        subst haa
        unfold submittable schemaValid at hsub
        rw [hopt, hd] at hsub
        simp at hsub
        tauto
  · intro o a a' ho
    rcases ho with rfl | rfl <;>
      simp [submittable, schemaValid]

/-- C2 amended witness: a positive partial amount is recorded as present,
and for the Full option two different partial amounts give the same
submittable verdict. -/
theorem C2_amended_witness :
    ({ paymentOption := some "partial", paymentAmount := some 100,
       paymentMethod := some "Check", additionalMessage := none } :
        PaymentFormData).paymentAmount ≠ none ∧
    submittable false
        { paymentOption := some "full", paymentAmount := some 5000,
          paymentMethod := some "Check", additionalMessage := none } =
      submittable false
        { paymentOption := some "full", paymentAmount := some 1,
          paymentMethod := some "Check", additionalMessage := none } := by
  constructor
  · exact ((C2_amended false
        { paymentOption := some "partial", paymentAmount := some 100,
          paymentMethod := some "Check", additionalMessage := none }).1
      rfl (by rfl)).1
  · exact (C2_amended false
        { paymentOption := some "full", paymentAmount := none,
          paymentMethod := some "Check", additionalMessage := none }).2
      "full" (some 5000) (some 1) (Or.inl rfl)

/-- C6 counterexample: a rejected submission leaves the user on the
invoice screen with the error only logged to the console — no error is
rendered to the user, so the claimed "surfaces the error to the user"
fails. -/
theorem C6_counterexample :
    invoiceOnSubmit (fun _ _ => QueryResult.err 500 "Failed to schedule payment")
        "1" "123456" "2023-05-01" (some sampleInvoice)
        { paymentOption := some "full", paymentAmount := none,
          paymentMethod := some "Check", additionalMessage := none } =
      { navigation := none, consoleError := true, renderedError := none } := by
  rfl

/-- C6 amended: whenever the update request fails, onSubmit performs no
navigation (the Controller stays on InvoiceReview, so the user may retry)
and does not transition to Confirmation; the error is only logged to the
console and is not surfaced to the user. -/
theorem C6_amended (fetchPut : String → PutBody → QueryResult InvoiceModel)
    (invoiceId pin today : String) (invoice : Option InvoiceModel)
    (d : PaymentFormData) (st : ℕ) (msg : String)
    (hfail : fetchPut invoiceId
        (schedulePaymentBody pin (d.paymentMethod.getD "") today) =
      QueryResult.err st msg) :
    invoiceOnSubmit fetchPut invoiceId pin today invoice d =
      { navigation := none, consoleError := true, renderedError := none } := by
  unfold invoiceOnSubmit schedulePayment
  rw [hfail]

/-- C6 amended witness: concrete failing transport. -/
theorem C6_amended_witness :
    invoiceOnSubmit (fun _ _ => QueryResult.err 404 "Invoice not found")
        "2" "654321" "2023-05-02" none
        { paymentOption := some "dueDate", paymentAmount := none,
          paymentMethod := some "ACH", additionalMessage := some "hello" } =
      { navigation := none, consoleError := true, renderedError := none } :=
  C6_amended (fun _ _ => QueryResult.err 404 "Invoice not found")
    "2" "654321" "2023-05-02" none
    { paymentOption := some "dueDate", paymentAmount := none,
      paymentMethod := some "ACH", additionalMessage := some "hello" }
    404 "Invoice not found" rfl

/-- C7: for an invoice with an existing payment method and date, the
prefill effect sets paymentOption to "dueDate" when the scheduled payment
date is on/after the due date or the status contains "scheduled"
(case-insensitively), to "full" otherwise, and carries the existing
payment method into the selection. -/
theorem C7_prefill (dateValue : String → ℤ) (invoice : InvoiceModel)
    (m : String) (hexist : hasExistingPayment invoice = true)
    (hm : invoice.payment_method = some m)
    (hvalid : m = "Credit Card" ∨ m = "ACH" ∨ m = "Check") :
    ((dateValue invoice.payment_due_date ≤
          dateValue (invoice.payment_date.getD "") ∨
        strIncludes (jsToLowerCase invoice.status) "scheduled" = true) →
      (invoicePrefillEffect dateValue invoice).paymentOption = some "dueDate") ∧
    ((¬ (dateValue invoice.payment_due_date ≤
          dateValue (invoice.payment_date.getD "")) ∧
        strIncludes (jsToLowerCase invoice.status) "scheduled" = false) →
      (invoicePrefillEffect dateValue invoice).paymentOption = some "full") ∧
    (invoicePrefillEffect dateValue invoice).paymentMethod = some m := by
  unfold invoicePrefillEffect
  rw [hexist, if_pos rfl, hm]
  refine ⟨?_, ?_, ?_⟩
  · intro hcond
    have : (decide (dateValue invoice.payment_due_date ≤
          dateValue (invoice.payment_date.getD "")) ||
        strIncludes (jsToLowerCase invoice.status) "scheduled") = true := by
      rcases hcond with hle | hinc
      · simp [hle]
      · simp [hinc]
    simp [this]
  · intro hcond
    have : (decide (dateValue invoice.payment_due_date ≤
          dateValue (invoice.payment_date.getD "")) ||
        strIncludes (jsToLowerCase invoice.status) "scheduled") = false := by
      simp [hcond.1, hcond.2]
    simp [this]
  · rcases hvalid with rfl | rfl | rfl <;> rfl

/-- C7 witness: the scheduled sample invoice (status "Scheduled for
payment", ACH on file) prefills to the OnDueDate option carrying ACH. -/
theorem C7_prefill_witness :
    (invoicePrefillEffect (fun _ => 0) scheduledInvoice).paymentOption =
        some "dueDate" ∧
    (invoicePrefillEffect (fun _ => 0) scheduledInvoice).paymentMethod =
        some "ACH" := by
  have h := C7_prefill (fun _ => 0) scheduledInvoice "ACH" (by rfl) (by rfl)
    (Or.inr (Or.inl rfl))
  exact ⟨h.1 (Or.inl (le_refl 0)), h.2.2⟩

/-- The first mock invoice ("1", Acme Corporation), restated for concrete
instances. -/
def acmeInvoice : Invoice :=
  { id := "1", customer := "Acme Corporation", invoiceNumber := "INV-2023-0042",
    issueDate := "2023-04-15", dueDate := "2023-05-15", originalAmount := 2500,
    creditMemo := { id := "CM-001", amount := 150 }, outstandingBalance := 2350,
    pin := "123456" }

/-- C4 counterexample: the mock fee computation applies no rounding — for
a partial credit-card payment of 1.00 on invoice "1" the processing fee is
exactly 0.029 and the total exactly 1.029, not the round-half-up values
0.03 and 1.03 required by the claimed `round(base × rate)` form. -/
theorem C4_counterexample :
    processPayment "5/1/2023" 42 "1" "partial" "creditCard" (some 1) none =
      QueryResult.ok
        { invoiceNumber := "INV-2023-0042", customer := "Acme Corporation",
          paymentOption := "Partial payment now",
          paymentMethod := "Credit card on file",
          paymentAmount := 1, processingFee := 1 * (29 / 1000),
          totalAmount := 1 + 1 * (29 / 1000), transactionDate := "5/1/2023",
          transactionId := some "TRX-42", success := true } ∧
    (1 * (29 / 1000) : ℚ) ≠ specRound2HalfUp (1 * (29 / 1000)) ∧
    (1 + 1 * (29 / 1000) : ℚ) ≠ 1 + specRound2HalfUp (1 * (29 / 1000)) := by
  have hr : specRound2HalfUp (1 * (29 / 1000)) = 3 / 100 := by
    unfold specRound2HalfUp
    norm_num
  refine ⟨rfl, ?_, ?_⟩ <;> rw [hr] <;> norm_num

/-- C4 amended: the mock quote applies no rounding — a creditCard payment
carries surcharge exactly amount × 0.029 and total amount + surcharge,
while ach and check carry surcharge 0 and total = amount; the claimed
2500.00 scenario holds exactly (surcharge 72.50, total 2572.50) because
2500 × 0.029 is an exact 2-decimal value; on the real schedulePayment
path the Credit Card surcharge is the server-supplied flat cc_service_fee
(not computed from a rate), and ACH/Check add nothing. -/
theorem C4_amended (today : String) (rand : ℕ)
    (invoiceId paymentOption paymentMethod : String) (amt : Option ℚ)
    (msg : Option String) (invoice : Invoice)
    (hfind : mockInvoices.find? (fun inv => inv.id == invoiceId) = some invoice) :
    (respData (processPayment "5/15/2023" 0 "1" "partial" "creditCard"
          (some 2500) none)).map (fun r => (r.processingFee, r.totalAmount)) =
      some (145 / 2, 5145 / 2) ∧
    (respData (processPayment today rand invoiceId paymentOption paymentMethod
          amt msg)).map (fun r => r.totalAmount) =
      (respData (processPayment today rand invoiceId paymentOption paymentMethod
          amt msg)).map (fun r => r.paymentAmount + r.processingFee) ∧
    (paymentMethod = "creditCard" →
      (respData (processPayment today rand invoiceId paymentOption paymentMethod
            amt msg)).map (fun r => r.processingFee) =
        (respData (processPayment today rand invoiceId paymentOption paymentMethod
            amt msg)).map (fun r => r.paymentAmount * (29 / 1000))) ∧
    (paymentMethod = "ach" ∨ paymentMethod = "check" →
      (respData (processPayment today rand invoiceId paymentOption paymentMethod
            amt msg)).map (fun r => (r.processingFee, r.totalAmount)) =
        (respData (processPayment today rand invoiceId paymentOption paymentMethod
            amt msg)).map (fun r => (0, r.paymentAmount))) ∧
    (∀ (invM : InvoiceModel) (iid pin2 dt : String),
      (respData (schedulePayment (fun _ _ => QueryResult.ok invM) iid pin2
            "Credit Card" dt)).map (fun r => (r.processingFee, r.totalAmount)) =
        some (parseDecimal invM.cc_service_fee,
          parseDecimal invM.invoice_amount + parseDecimal invM.cc_service_fee) ∧
      (∀ m2, m2 = "ACH" ∨ m2 = "Check" →
        (respData (schedulePayment (fun _ _ => QueryResult.ok invM) iid pin2
              m2 dt)).map (fun r => (r.processingFee, r.totalAmount)) =
          some (0, parseDecimal invM.invoice_amount))) := by
  refine ⟨?_, ?_, ?_, ?_, ?_⟩
  · have hscen : processPayment "5/15/2023" 0 "1" "partial" "creditCard"
        (some 2500) none = QueryResult.ok
          { invoiceNumber := "INV-2023-0042", customer := "Acme Corporation",
            paymentOption := "Partial payment now",
            paymentMethod := "Credit card on file",
            paymentAmount := 2500, processingFee := 2500 * (29 / 1000),
            totalAmount := 2500 + 2500 * (29 / 1000),
            transactionDate := "5/15/2023", transactionId := some "TRX-0",
            success := true } := rfl
    rw [hscen]
    simp only [respData, Option.map_some]
    norm_num
  · unfold processPayment
    rw [hfind]
    rfl
  · intro hcc
    subst hcc
    unfold processPayment
    rw [hfind]
    rfl
  · intro hm
    unfold processPayment
    rw [hfind]
    rcases hm with rfl | rfl <;>
      exact congrArg some (congrArg (Prod.mk _) (add_zero _))
  · intro invM iid pin2 dt
    constructor
    · rfl
    · intro m2 hm2
      rcases hm2 with rfl | rfl <;>
        exact congrArg some (congrArg (Prod.mk _) (add_zero _))

/-- C4 witness: the amended theorem applied to invoice "1" with the check
method, whose scenario conjunct is the exact 2500.00 credit-card quote. -/
theorem C4_amended_witness :
    (respData (processPayment "5/15/2023" 0 "1" "partial" "creditCard"
          (some 2500) none)).map (fun r => (r.processingFee, r.totalAmount)) =
      some (145 / 2, 5145 / 2) :=
  (C4_amended "5/15/2023" 0 "1" "full" "check" none none acmeInvoice (by rfl)).1

/-- C8 counterexample: with the card capability flag off, Credit Card is
excluded from the enabled methods (not selectable), yet an invoice whose
existing payment method is Credit Card prefills that method into the form,
the form passes the schema, and the resulting PUT body carries
payment_method "Credit Card" — so Card can still appear in a submission. -/
theorem C8_counterexample :
    "Credit Card" ∉ enabledPaymentMethods ccDisabledScheduledInvoice ∧
    (invoicePrefillEffect (fun _ => 0) ccDisabledScheduledInvoice).paymentMethod =
      some "Credit Card" ∧
    schemaValid
        { paymentOption := some "dueDate", paymentAmount := none,
          paymentMethod := some "Credit Card", additionalMessage := none } =
      true ∧
    (schedulePaymentBody "123456"
        ((invoicePrefillEffect (fun _ => 0)
            ccDisabledScheduledInvoice).paymentMethod.getD "")
        "2023-05-01").payment_method = "Credit Card" := by
  refine ⟨?_, rfl, rfl, rfl⟩
  intro hmem
  simp [enabledPaymentMethods, ccDisabledScheduledInvoice, sampleInvoice] at hmem

/-- C8 amended: Credit Card is among the enabled payment methods iff the
card capability flag of the invoice is truthy, ACH iff the bank-debit flag is
truthy, and Check is always enabled (so with the card flag false, Card is
not selectable); however — per the counterexample — exclusion from the
enabled set does not prevent a prefilled Credit Card value from being
submitted. -/
theorem C8_amended (invoice : InvoiceModel) :
    ("Credit Card" ∈ enabledPaymentMethods invoice ↔
      invoice.customer_cc_token ≠ 0) ∧
    ("ACH" ∈ enabledPaymentMethods invoice ↔
      invoice.customer_ach_enabled ≠ 0) ∧
    "Check" ∈ enabledPaymentMethods invoice := by
  by_cases hcc : invoice.customer_cc_token = 0 <;>
    by_cases hach : invoice.customer_ach_enabled = 0 <;>
      simp [enabledPaymentMethods, hcc, hach]

/-- C8 amended witness: for the sample invoice with both flags on, all
three methods are enabled. -/
theorem C8_amended_witness :
    "Credit Card" ∈ enabledPaymentMethods sampleInvoice ∧
    "Check" ∈ enabledPaymentMethods sampleInvoice := by
  have h := C8_amended sampleInvoice
  exact ⟨h.1.mpr (by norm_num [sampleInvoice]), h.2.2⟩

/-- C9: the real submission path sends exactly
{pin, payment_method, payment_date, status = "Scheduled for payment"}
— the outcome is independent of the chosen paymentOption, partialAmount
and message — and a successful response always carries paymentOption
"Payment on scheduled date" with paymentAmount the full invoice amount. -/
theorem C9_schedule_request
    (fetchPut : String → PutBody → QueryResult InvoiceModel)
    (invoiceId pin today : String) (invoice : Option InvoiceModel)
    (d d' : PaymentFormData) (invM : InvoiceModel)
    (hm : d.paymentMethod = d'.paymentMethod)
    (hput : fetchPut invoiceId
        (schedulePaymentBody pin (d.paymentMethod.getD "") today) =
      QueryResult.ok invM) :
    schedulePaymentBody pin (d.paymentMethod.getD "") today =
      { pin := pin, payment_method := d.paymentMethod.getD "",
        payment_date := today, status := "Scheduled for payment" } ∧
    invoiceOnSubmit fetchPut invoiceId pin today invoice d =
      invoiceOnSubmit fetchPut invoiceId pin today invoice d' ∧
    (invoiceOnSubmit fetchPut invoiceId pin today invoice d).navigation.map
        (fun n => n.paymentResult.paymentOption) =
      some "Payment on scheduled date" ∧
    (invoiceOnSubmit fetchPut invoiceId pin today invoice d).navigation.map
        (fun n => n.paymentResult.paymentAmount) =
      some (parseDecimal invM.invoice_amount) := by
  refine ⟨rfl, ?_, ?_, ?_⟩
  · unfold invoiceOnSubmit schedulePayment
    rw [hm]
  · unfold invoiceOnSubmit schedulePayment
    rw [hput]
    rfl
  · unfold invoiceOnSubmit schedulePayment
    rw [hput]
    rfl

/-- C9 witness: two selections differing in option, partial amount and
message but agreeing on the method produce identical submission
outcomes. -/
theorem C9_schedule_request_witness :
    invoiceOnSubmit (fun _ _ => QueryResult.ok sampleInvoice)
        "1" "123456" "2023-05-01" (some sampleInvoice)
        { paymentOption := some "full", paymentAmount := some 10,
          paymentMethod := some "Check", additionalMessage := some "hi" } =
      invoiceOnSubmit (fun _ _ => QueryResult.ok sampleInvoice)
        "1" "123456" "2023-05-01" (some sampleInvoice)
        { paymentOption := some "partial", paymentAmount := some 3,
          paymentMethod := some "Check", additionalMessage := none } :=
  (C9_schedule_request (fun _ _ => QueryResult.ok sampleInvoice)
      "1" "123456" "2023-05-01" (some sampleInvoice)
      { paymentOption := some "full", paymentAmount := some 10,
        paymentMethod := some "Check", additionalMessage := some "hi" }
      { paymentOption := some "partial", paymentAmount := some 3,
        paymentMethod := some "Check", additionalMessage := none }
      sampleInvoice rfl rfl).2.1

/-- C10: a mock-path partial payment with the amount absent (or zero) is
accepted: the response is a success with paymentAmount 0 and totalAmount
0, for any payment method, rather than an error. -/
theorem C10_partial_defaults (today : String) (rand : ℕ)
    (invoiceId paymentMethod : String) (amt : Option ℚ) (msg : Option String)
    (invoice : Invoice)
    (hfind : mockInvoices.find? (fun inv => inv.id == invoiceId) = some invoice)
    (hamt : amt = none ∨ amt = some 0) :
    (respData (processPayment today rand invoiceId "partial" paymentMethod
          amt msg)).map (fun r => (r.paymentAmount, r.totalAmount, r.success)) =
      some (0, 0, true) := by
  have h0 : amt.getD 0 = 0 := by rcases hamt with rfl | rfl <;> rfl
  unfold processPayment
  rw [hfind]
  simp only [respData, Option.map_some, Option.some.injEq]
  cases hb : paymentMethod == "creditCard" <;> simp [hb, h0]

/-- C10 witness: invoice "1", creditCard, absent amount — success with
amount and total 0. -/
theorem C10_partial_defaults_witness :
    (respData (processPayment "5/1/2023" 7 "1" "partial" "creditCard"
          none none)).map (fun r => (r.paymentAmount, r.totalAmount, r.success)) =
      some (0, 0, true) :=
  C10_partial_defaults "5/1/2023" 7 "1" "creditCard" none none acmeInvoice
    (by rfl) (Or.inl rfl)

end InvoiceFrontend
